import Mathlib

/-!
Shallow embedding of the ReAct agent loop of
`src/language_models/agent/agent.py` (the `Agent` class, its
`_trim_conversation`, `_parse_output`, `invoke` and `create` members and the
module-level helpers `num_tokens_from_messages` and `_MODEL_TOKEN_LIMIT`).

The repository modules `chat.py`, `output_parser.py`, `prompt.py`,
`models/llm.py` and `tools/tool.py` are not part of the sources; the
specification treats them as external collaborators.  Data shapes and
behaviours that come from those modules are modelled from the specification
and carry a doc comment saying so; everything else is translated directly
from `agent.py`.
-/

/-- Modelled from the spec: the role of a chat message is one of system,
user and assistant (the message role enum of the absent `models/llm.py`
module, rendered to its string value by `model_dump`). -/
inductive ChatMessageRole where
  | system
  | user
  | assistant
  deriving DecidableEq, Repr

/-- String value of a role, as dumped by the message model and fed to the
token encoder by `num_tokens_from_messages`. -/
def ChatMessageRole.value : ChatMessageRole → String
  | .system => "system"
  | .user => "user"
  | .assistant => "assistant"

/-- Modelled from the spec: a chat message is a pair of a role and a text
content (the `ChatMessage` model of the absent `models/llm.py` module). -/
structure ChatMessage where
  role : ChatMessageRole
  content : String
  deriving DecidableEq, Repr

/-- Names of reasoning steps, after `ReasoningStepName` of the absent
`chat.py` module; the four names used by `agent.py` are prompt, thought,
tool and final answer. -/
inductive ReasoningStepName where
  | prompt
  | thought
  | tool
  | finalAnswer
  deriving DecidableEq, Repr

/-- Structured content of a tool reasoning step, after `ReasoningStepTool`
of the absent `chat.py` module, carrying the requested tool name, the tool
input and the tool response exactly as `agent.py` stores them. -/
structure ReasoningStepTool where
  tool : String
  toolInput : String
  toolResponse : String
  deriving DecidableEq, Repr

/-- Content of a reasoning step: plain text for prompt, thought and final
answer steps, and a structured tool record for tool steps. -/
inductive ReasoningStepContent where
  | text (s : String)
  | toolCall (t : ReasoningStepTool)
  deriving DecidableEq, Repr

/-- One reasoning step of the chain of thought, after `ReasoningStep` of
the absent `chat.py` module. -/
structure ReasoningStep where
  name : ReasoningStepName
  content : ReasoningStepContent
  deriving DecidableEq, Repr

/-- Modelled from the spec: the conversation state of the absent `chat.py`
module owns the ordered message log, the structured chain of thought and
the transient list of human readable step summaries. -/
structure Chat where
  messages : List ChatMessage
  chainOfThought : List ReasoningStep
  steps : List String
  deriving DecidableEq, Repr

/-- Token limits per known model identifier, translated from the
`_MODEL_TOKEN_LIMIT` dictionary of `agent.py`; an unknown identifier has no
entry, which in the source raises a `KeyError` on lookup. -/
def MODEL_TOKEN_LIMIT : String → Option Nat
  | "gpt-4" => some 8192
  | "gpt-4-32k" => some 32768
  | "gpt-35-turbo" => some 4096
  | "gpt-35-turbo-16k" => some 16385
  | _ => none

/-- Token estimate of a message log, translated from
`num_tokens_from_messages` of `agent.py`: 4 tokens per message plus the
encoded length of every dumped field value, plus 2 tokens overall.  The
encoder (tiktoken) is an external collaborator, abstracted as `enc`; the
message model dumps exactly a role and a content field, so the source
adjustment for a field named name never fires. -/
def numTokensFromMessages (enc : String → Nat) (messages : List ChatMessage) : Nat :=
  (messages.foldl (fun acc m => acc + 4 + enc m.role.value + enc m.content) 0) + 2

/-- Inner loop of `Agent._trim_conversation`, operating on the tail behind
the first message `sys`: while the token estimate of the whole log plus the
completion budget reaches the model token limit, delete the message at
index 1; deleting from a log that has no index 1 is the source raising an
`IndexError`, modelled as `none`. -/
def trimTail (enc : String → Nat) (maxTokens limit : Nat) (sys : ChatMessage) :
    List ChatMessage → Option (List ChatMessage)
  | [] =>
    if limit ≤ numTokensFromMessages enc [sys] + maxTokens then none else some []
  | y :: rest =>
    if limit ≤ numTokensFromMessages enc (sys :: y :: rest) + maxTokens then
      trimTail enc maxTokens limit sys rest
    else some (y :: rest)

/-- Translation of `Agent._trim_conversation` of `agent.py`: repeatedly
delete the message at index 1 while the token estimate plus the maximum
completion tokens reaches the model token limit.  The result is `none`
exactly when the source raises an `IndexError` by deleting index 1 from a
log that has at most one message while the bound is still exceeded. -/
def trimConversation (enc : String → Nat) (maxTokens limit : Nat) :
    List ChatMessage → Option (List ChatMessage)
  | [] => if limit ≤ numTokensFromMessages enc [] + maxTokens then none else some []
  | sys :: rest => (trimTail enc maxTokens limit sys rest).map (fun t => sys :: t)

/-- Modelled from the spec: final answer values are one of string, number,
mapping, structured object, a list of any of these, or empty; mappings and
synthesized null filled schema instances are both field name to value
maps. -/
inductive Value where
  | null
  | str (s : String)
  | num (n : Int)
  | obj (fields : List (String × Value))
  | arr (elems : List Value)

/-- Successful parser results, after `LLMToolUse` and `LLMFinalAnswer` of
the absent `output_parser.py` module: both carry a thought, a tool use adds
the requested tool name and the tool input, a final answer carries the
answer value. -/
inductive LLMOutput where
  | toolUse (thought tool toolInput : String)
  | finalAnswer (thought : String) (answer : Value)

/-- Thought field shared by both successful parser results. -/
def LLMOutput.thought : LLMOutput → String
  | .toolUse t _ _ => t
  | .finalAnswer t _ => t

/-- Kind of error raised by the output parsing collaborator: the source
catches exactly `ValueError` and `TypeError`; every other kind is
represented by `other`. -/
inductive ParseErrorKind where
  | valueError
  | typeError
  | other
  deriving DecidableEq, Repr

/-- Modelled from the spec: the parse collaborator of the absent
`output_parser.py` module either returns a tagged result or fails with an
error kind and message. -/
inductive ParseResult where
  | success (out : LLMOutput)
  | failure (kind : ParseErrorKind) (msg : String)

/-- Modelled from the spec: output types of the absent `output_parser.py`
module; `agent.py` branches on the structured object, list of structured
object, free form object, list of free form object, date and timestamp
members, every other member (plain string, number, none) falls into its
default branch. -/
inductive OutputType where
  | string
  | number
  | date
  | timestamp
  | struct
  | arrayStruct
  | object
  | arrayObject
  | nothing
  deriving DecidableEq, Repr

/-- Modelled from the spec: declared output schema, either a schema class
(whose json schema property names and annotation field names are the two
field name lists `agent.py` introspects) or a plain format string used by
the date and timestamp output types. -/
inductive OutputSchema where
  | model (name : String) (props : List String) (fields : List String)
  | strFormat (s : String)

/-- Modelled from the spec: the configured output parsing state of the
absent `output_parser.py` module, as far as `agent.py` reads it: the output
type, the json schema property names of its object schema and the
annotation field names of its output schema.  The parse behaviour itself
is supplied by the collaborators record. -/
structure AgentOutputParser where
  outputType : OutputType
  objectSchemaProps : List String
  outputSchemaFields : List String
  toolUse : Bool

/-- Modelled from the spec: a tool exposes a unique name and an invoke
capability from input text to output text (the `Tool` class of the absent
`tools/tool.py` module). -/
structure Tool where
  name : String
  invoke : String → String

/-- Modelled from the spec: the model collaborator configuration read by
`agent.py`, a model identifier for the token limit lookup and the maximum
completion tokens used by the trim bound. -/
structure OpenAILanguageModel where
  model : String
  maxTokens : Nat

/-- Prompting strategies, translated from the `PromptingStrategy` enum of
`agent.py`; informational, the loop does not branch on it. -/
inductive PromptingStrategy where
  | singleCompletion
  | chainOfThought
  deriving DecidableEq, Repr

/-- Errors that propagate out of the agent: the index error of deleting
index 1 from a too short log, the key error of an unknown model identifier,
an uncaught parser error kind, the value error raised by `Agent.create`
when an object like output type has no schema, and the attribute error of
formatting schema instructions from a plain string schema. -/
inductive AgentError where
  | indexError
  | keyError (model : String)
  | uncaughtParse (msg : String)
  | valueErrorSchema (outputType : OutputType)
  | attributeError
  deriving DecidableEq, Repr

/-- External collaborator behaviours, all abstracted as total functions:
`complete` is the model completion service (indexed by the running call
count so every behaviour along the run is expressible), `parse` is the
output parsing collaborator, `enc` is the tiktoken encoder, `updateContent`
is the user turn rebuild of the absent `chat.py` module (modelled from the
spec: it turns the prompt and the accumulated step summaries into the next
user message content), `format` is the prompt template substitution of
python `str.format` with the declared variables, and `strOf` is the python
`str` builtin on answer values. -/
structure Collaborators where
  complete : Nat → List ChatMessage → String
  parse : String → ParseResult
  enc : String → Nat
  updateContent : String → List String → String
  format : String → List (String × Option String) → String
  strOf : Value → String

/-- Modelled from the spec: the instruction templates of the absent
`prompt.py` and `output_parser.py` modules, abstracted as opaque text
builders used only to assemble the system message in `Agent.create`. -/
structure PromptTemplates where
  instructionsWithoutTools : String
  instructionsWithTools : List Tool → String
  finalAnswerForSchema : OutputType → List String → String
  finalAnswerForFormat : OutputType → Option OutputSchema → String
  finalAnswerPlain : OutputType → String

/-- Translation of the `Agent` model of `agent.py`: the model
configuration, the optional tool registry, the prompt template and its
declared variables, the output parsing configuration, the owned
conversation state and the iteration budget. -/
structure Agent where
  llm : OpenAILanguageModel
  tools : Option (List Tool)
  prompt : String
  promptVariables : List String
  outputParser : AgentOutputParser
  chat : Chat
  promptingStrategy : PromptingStrategy
  iterations : Nat

/-- Default iteration budget of the `Agent.iterations` field. -/
def defaultIterations : Nat := 10

/-- Translation of the `AgentOutput` model of `agent.py`: the resolved
prompt, the final answer value and the full chain of thought. -/
structure AgentOutput where
  prompt : String
  finalAnswer : Value
  chainOfThought : List ReasoningStep

/-- Result of one `invoke` call: the produced output, the conversation
state the call leaves behind, and the number of model completion calls the
run made (instrumentation of the embedding). -/
structure InvokeResult where
  output : AgentOutput
  chat : Chat
  modelCalls : Nat

/-- Translation of `Agent._parse_output` of `agent.py`: a successful parse
yields the output with no observation; a `ValueError` or `TypeError` from
the parser is caught and becomes the observation; any other error kind is
not caught and propagates. -/
def parseOutput (parse : String → ParseResult) (raw : String) :
    Except AgentError (Option LLMOutput × Option String) :=
  match parse raw with
  | .success out => .ok (some out, none)
  | .failure .valueError msg => .ok (none, some msg)
  | .failure .typeError msg => .ok (none, some msg)
  | .failure .other msg => .error (.uncaughtParse msg)

/-- Observation text interpolated into the observation step summary: the
python f string renders a missing observation as the text None. -/
def observationText : Option String → String
  | some s => s
  | none => "None"

/-- Tool lookup by requested name, translating the dictionary get on the
name keyed tool registry that `Agent.create` builds. -/
def lookupTool (tools : List Tool) (name : String) : Option Tool :=
  tools.find? (fun t => t.name == name)

/-- Comma joined registered tool names, translating the join over the
registry keys used by the unknown tool observation. -/
def toolNames (tools : List Tool) : String :=
  String.intercalate ", " (tools.map (fun t => t.name))

/-- Modelled from the spec: `Chat.update` of the absent `chat.py` module
appends the next user turn message, whose content the collaborator rebuilds
from the prompt and the accumulated step summaries; the summaries list
itself is left in place. -/
def Chat.update (updateContent : String → List String → String) (prompt : String)
    (chat : Chat) : Chat :=
  { chat with messages := chat.messages ++ [⟨.user, updateContent prompt chat.steps⟩] }

/-- Outcome of one iteration of the `invoke` loop body: an immediate
return with a genuine final answer, a continuation into the next iteration,
or a propagating error; the flag of `fatal` records whether the model
completion call of the iteration had already happened. -/
inductive IterResult where
  | done (out : AgentOutput) (chat : Chat)
  | next (chat : Chat)
  | fatal (e : AgentError) (calledModel : Bool)

/-- Tail of every non returning iteration of the `invoke` loop body:
append the observation step summary and let the conversation state rebuild
the next user turn. -/
def finishIter (C : Collaborators) (prompt : String) (chat : Chat)
    (observation : Option String) : IterResult :=
  let chat := { chat with steps := chat.steps ++ ["Observation: " ++ observationText observation] }
  .next (Chat.update C.updateContent prompt chat)

/-- Translation of one iteration of the `while` loop of `Agent.invoke`:
trim the conversation, call the model, parse the output; on success append
the thought step, then either return the final answer immediately or
dispatch the requested tool; on a caught parse failure the error message
becomes the observation; finally append the observation summary and rebuild
the next user turn. -/
def iterBody (agent : Agent) (C : Collaborators) (prompt : String) (callIdx : Nat)
    (chat : Chat) : IterResult :=
  match MODEL_TOKEN_LIMIT agent.llm.model with
  | none => .fatal (.keyError agent.llm.model) false
  | some limit =>
    match trimConversation C.enc agent.llm.maxTokens limit chat.messages with
    | none => .fatal .indexError false
    | some tm =>
      let chat := { chat with messages := tm }
      let raw := C.complete callIdx chat.messages
      match parseOutput C.parse raw with
      | .error e => .fatal e true
      | .ok (none, observation) => finishIter C prompt chat observation
      | .ok (some out, observation) =>
        let chat := { chat with
          steps := chat.steps ++ ["Thought: " ++ out.thought],
          chainOfThought := chat.chainOfThought ++ [⟨.thought, .text out.thought⟩] }
        match out with
        | .finalAnswer _ answer =>
          let cot := chat.chainOfThought ++ [⟨.finalAnswer, .text (C.strOf answer)⟩]
          .done ⟨prompt, answer, cot⟩
            { chat with
              chainOfThought := cot,
              messages := chat.messages ++ [⟨.assistant, C.strOf answer⟩] }
        | .toolUse _ toolName toolInput =>
          match agent.tools with
          | none => finishIter C prompt chat observation
          | some tools =>
            match lookupTool tools toolName with
            | some tool =>
              let resp := tool.invoke toolInput
              let chat := { chat with
                steps := chat.steps ++ ["Tool: " ++ tool.name, "Tool Input: " ++ toolInput],
                chainOfThought := chat.chainOfThought ++
                  [⟨.tool, .toolCall ⟨toolName, toolInput, resp⟩⟩] }
              finishIter C prompt chat (some ("Tool Response:\n" ++ resp))
            | none =>
              finishIter C prompt chat
                (some (toolName ++ " tool doesn\x27t exist. Try one of these tools: " ++
                  toolNames tools))

/-- Terminal outcome of the `invoke` loop: a genuine final answer, an
exhausted iteration budget, or a propagating error. -/
inductive LoopResult where
  | answered (out : AgentOutput) (chat : Chat)
  | exhausted (chat : Chat)
  | failed (e : AgentError)

/-- Translation of the `while iteration <= self.iterations` loop of
`Agent.invoke`, with the remaining iteration count as fuel (the source
executes the body once per iteration value from 0 up to the budget) and the
running count of model completion calls threaded through. -/
def invokeLoop (agent : Agent) (C : Collaborators) (prompt : String) :
    Nat → Nat → Chat → LoopResult × Nat
  | 0, calls, chat => (.exhausted chat, calls)
  | n + 1, calls, chat =>
    match iterBody agent C prompt calls chat with
    | .done out chat => (.answered out chat, calls + 1)
    | .next chat => invokeLoop agent C prompt n (calls + 1) chat
    | .fatal e calledModel => (.failed e, calls + (if calledModel then 1 else 0))

/-- Resolved task prompt: the prompt template formatted with the values of
the declared prompt variables, a missing variable resolving to a null
substitution, exactly the dictionary comprehension of `Agent.invoke`. -/
def Agent.resolvedPrompt (agent : Agent) (C : Collaborators)
    (inputs : String → Option String) : String :=
  C.format agent.prompt (agent.promptVariables.map (fun v => (v, inputs v)))

/-- Conversation state at the start of `Agent.invoke`: the resolved prompt
is appended to the message log as a user message, the chain of thought is
reseeded with a single prompt step and the step summaries are cleared. -/
def initChat (chat : Chat) (prompt : String) : Chat :=
  { messages := chat.messages ++ [⟨.user, prompt⟩],
    chainOfThought := [⟨.prompt, .text prompt⟩],
    steps := [] }

/-- Null filled fallback answer built after budget exhaustion, translated
from the output type branching at the end of `Agent.invoke`: a structured
object maps every json schema property to null, a list of structured
objects is a one element list of that mapping, a free form object is a
synthesized instance with every annotation field optional and defaulted to
null (a one element list of it for the list variant), everything else is
null. -/
def fallbackAnswer (p : AgentOutputParser) : Value :=
  match p.outputType with
  | .struct => .obj (p.objectSchemaProps.map (fun key => (key, .null)))
  | .arrayStruct => .arr [.obj (p.objectSchemaProps.map (fun key => (key, .null)))]
  | .object => .obj (p.outputSchemaFields.map (fun field => (field, .null)))
  | .arrayObject => .arr [.obj (p.outputSchemaFields.map (fun field => (field, .null)))]
  | _ => .null

/-- Translation of `Agent.invoke` of `agent.py`: resolve the prompt, seed
the conversation state, run the loop for at most `iterations + 1`
iterations, and return either the genuine final answer, the fallback
answer on budget exhaustion, or the propagated error. -/
def Agent.invoke (agent : Agent) (C : Collaborators) (inputs : String → Option String) :
    Except AgentError InvokeResult :=
  match invokeLoop agent C (agent.resolvedPrompt C inputs) (agent.iterations + 1) 0
      (initChat agent.chat (agent.resolvedPrompt C inputs)) with
  | (.answered out chatF, calls) => .ok ⟨out, chatF, calls⟩
  | (.exhausted chatF, calls) =>
    .ok ⟨⟨agent.resolvedPrompt C inputs, fallbackAnswer agent.outputParser,
      chatF.chainOfThought⟩, chatF, calls⟩
  | (.failed e, _) => .error e

/-- Output parsing configuration built by `Agent.create`, with the schema
introspection of the absent `output_parser.py` module modelled as the two
field name lists of the declared schema. -/
def mkOutputParser (outputType : OutputType) (outputSchema : Option OutputSchema)
    (toolUse : Bool) : AgentOutputParser :=
  match outputSchema with
  | some (.model _ props fields) => ⟨outputType, props, fields, toolUse⟩
  | _ => ⟨outputType, [], [], toolUse⟩

/-- Translation of `Agent.create` of `agent.py`: pick the instruction text
according to whether tools are configured, fail with a value error when an
object like output type has no schema, assemble the system message, and
build the agent with a name keyed tool registry. -/
def Agent.create (T : PromptTemplates) (llm : OpenAILanguageModel)
    (systemPrompt prompt : String) (promptVariables : List String)
    (outputType : OutputType) (outputSchema : Option OutputSchema)
    (tools : Option (List Tool)) (promptingStrategy : PromptingStrategy)
    (iterations : Nat) : Except AgentError Agent :=
  let instructions :=
    match tools with
    | none => T.instructionsWithoutTools
    | some ts => T.instructionsWithTools ts
  let toolUse := tools.isSome
  let finalAnswerInstructions : Except AgentError String :=
    if outputType = .object ∨ outputType = .arrayObject then
      match outputSchema with
      | none => .error (.valueErrorSchema outputType)
      | some (.model _ props _) => .ok (T.finalAnswerForSchema outputType props)
      | some (.strFormat _) => .error .attributeError
    else if outputType = .date ∨ outputType = .timestamp then
      .ok (T.finalAnswerForFormat outputType outputSchema)
    else
      .ok (T.finalAnswerPlain outputType)
  match finalAnswerInstructions with
  | .error e => .error e
  | .ok fai =>
    let chat : Chat :=
      ⟨[⟨.system, String.intercalate "\n\n" [systemPrompt, instructions, fai]⟩], [], []⟩
    .ok
      { llm := llm, tools := tools, prompt := prompt, promptVariables := promptVariables,
        outputParser := mkOutputParser outputType outputSchema toolUse, chat := chat,
        promptingStrategy := promptingStrategy, iterations := iterations }

/-- One permitted mutation of the message log during an `invoke` run:
appending a message at the end, or the trim deletion of the message at
index 1. -/
inductive MsgStep : List ChatMessage → List ChatMessage → Prop where
  | append (l : List ChatMessage) (m : ChatMessage) : MsgStep l (l ++ [m])
  | drop1 (x y : ChatMessage) (rest : List ChatMessage) : MsgStep (x :: y :: rest) (x :: rest)

/-- Evolution of the message log by any number of permitted mutations. -/
def MsgsEvolve : List ChatMessage → List ChatMessage → Prop :=
  Relation.ReflTransGen MsgStep

/-- Chat payload of a `next` iteration outcome, used to state concrete
facts about a single loop turn. -/
def IterResult.nextChat : IterResult → Option Chat
  | .next chat => some chat
  | _ => none

/-- Test encoder that charges nothing for any text. -/
def encZero : String → Nat := fun _ => 0

/-- Test model configuration: a known identifier and no completion
budget. -/
def llmW : OpenAILanguageModel := ⟨"gpt-4", 0⟩

/-- Test system message. -/
def sysMsgW : ChatMessage := ⟨.system, "s"⟩

/-- Test conversation state holding only the system message. -/
def chatW : Chat := ⟨[sysMsgW], [], []⟩

/-- Test tool that echoes its input. -/
def echoTool : Tool := ⟨"echo", fun s => s⟩

/-- Test collaborators whose parse always fails with a caught value
error. -/
def CFailValue : Collaborators :=
  ⟨fun _ _ => "raw", fun _ => .failure .valueError "bad", encZero,
   fun _ _ => "u", fun tpl _ => tpl, fun _ => "ans"⟩

/-- Test collaborators whose parse always fails with an uncaught error
kind. -/
def CFailOther : Collaborators :=
  ⟨fun _ _ => "raw", fun _ => .failure .other "boom", encZero,
   fun _ _ => "u", fun tpl _ => tpl, fun _ => "ans"⟩

/-- Test collaborators whose parse always requests the unregistered tool
named ghost. -/
def CToolGhost : Collaborators :=
  ⟨fun _ _ => "raw", fun _ => .success (.toolUse "th" "ghost" "in"), encZero,
   fun _ _ => "u", fun tpl _ => tpl, fun _ => "ans"⟩

/-- Test collaborators whose parse always requests the registered echo
tool. -/
def CToolEcho : Collaborators :=
  ⟨fun _ _ => "raw", fun _ => .success (.toolUse "th" "echo" "in"), encZero,
   fun _ _ => "u", fun tpl _ => tpl, fun _ => "ans"⟩

/-- Test collaborators whose parse always returns a final answer. -/
def CFinal : Collaborators :=
  ⟨fun _ _ => "raw", fun _ => .success (.finalAnswer "th" (.str "answer")), encZero,
   fun _ _ => "u", fun tpl _ => tpl, fun _ => "ans"⟩

/-- Test output parsing configuration: structured object output with the
two schema fields a and b. -/
def parserStructAB : AgentOutputParser := ⟨.struct, ["a", "b"], [], false⟩

/-- Test agent without tools and with a zero iteration budget. -/
def agentW : Agent := ⟨llmW, none, "p", [], parserStructAB, chatW, .chainOfThought, 0⟩

/-- Test agent with the echo tool registered and a one iteration
budget. -/
def agentTools : Agent :=
  ⟨llmW, some [echoTool], "p", [], parserStructAB, chatW, .chainOfThought, 1⟩

/-- Test prompt inputs carrying no variable values. -/
def inputsW : String → Option String := fun _ => none

/-- Test prompt templates with inert text. -/
def templatesW : PromptTemplates :=
  ⟨"plain", fun _ => "tools", fun _ _ => "schema", fun _ _ => "format", fun _ => "plain"⟩

/-- Invariant established by a single loop iteration: a continuation or an
immediate return only ever extends the chain of thought, the message log
evolves by permitted mutations only, and an immediate return reports
exactly the chain of thought it leaves in the conversation state. -/
def iterInvariant (chat : Chat) : IterResult → Prop
  | .next chat' =>
    chat.chainOfThought <+: chat'.chainOfThought ∧ MsgsEvolve chat.messages chat'.messages
  | .done out chat' =>
    out.chainOfThought = chat'.chainOfThought ∧
      chat.chainOfThought <+: chat'.chainOfThought ∧ MsgsEvolve chat.messages chat'.messages
  | .fatal _ _ => True

/-- Invariant established by the whole loop, composing the per iteration
invariant over any number of iterations. -/
def loopInvariant (chat : Chat) : LoopResult → Prop
  | .answered out chatF =>
    chat.chainOfThought <+: out.chainOfThought ∧
      out.chainOfThought = chatF.chainOfThought ∧ MsgsEvolve chat.messages chatF.messages
  | .exhausted chatF =>
    chat.chainOfThought <+: chatF.chainOfThought ∧ MsgsEvolve chat.messages chatF.messages
  | .failed _ => True

/-- Result of the first test run that exhausts its budget: the parse always
fails with a caught value error, so one model call happens, the fallback
answer is produced and the conversation keeps the rebuilt user turn. -/
def rFailW : InvokeResult :=
  ⟨⟨"p", .obj [("a", .null), ("b", .null)], [⟨.prompt, .text "p"⟩]⟩,
   ⟨[sysMsgW, ⟨.user, "p"⟩, ⟨.user, "u"⟩], [⟨.prompt, .text "p"⟩], ["Observation: bad"]⟩, 1⟩

/-- Result of the test run whose first parse is a final answer. -/
def rFinalW : InvokeResult :=
  ⟨⟨"p", .str "answer",
    [⟨.prompt, .text "p"⟩, ⟨.thought, .text "th"⟩, ⟨.finalAnswer, .text "ans"⟩]⟩,
   ⟨[sysMsgW, ⟨.user, "p"⟩, ⟨.assistant, "ans"⟩],
    [⟨.prompt, .text "p"⟩, ⟨.thought, .text "th"⟩, ⟨.finalAnswer, .text "ans"⟩],
    ["Thought: th"]⟩, 1⟩

/-- Bound established by the trim inner loop whenever it returns. -/
theorem trimTail_bound (enc : String → Nat) (maxT limit : Nat) (sys : ChatMessage) :
    ∀ rest t, trimTail enc maxT limit sys rest = some t →
      numTokensFromMessages enc (sys :: t) + maxT < limit := by
  intro rest
  induction rest with
  | nil =>
    intro t h
    unfold trimTail at h
    split at h
    · cases h
    · next hc =>
      cases h
      exact Nat.lt_of_not_le hc
  | cons y rest ih =>
    intro t h
    unfold trimTail at h
    split at h
    · exact ih t h
    · next hc =>
      cases h
      exact Nat.lt_of_not_le hc

/-- The trim inner loop only ever returns a suffix of the tail it
started from. -/
theorem trimTail_suffix (enc : String → Nat) (maxT limit : Nat) (sys : ChatMessage) :
    ∀ rest t, trimTail enc maxT limit sys rest = some t → t <:+ rest := by
  intro rest
  induction rest with
  | nil =>
    intro t h
    unfold trimTail at h
    split at h
    · cases h
    · cases h
      exact List.nil_suffix
  | cons y rest ih =>
    intro t h
    unfold trimTail at h
    split at h
    · exact (ih t h).trans (List.suffix_cons y rest)
    · cases h
      exact List.suffix_refl _

/-- Claim C2 (amended): whenever `trim` returns normally, the token
estimate of the remaining log plus the maximum completion tokens is below
the model token limit; the case where the bound is still exceeded once
only the system message remains does not return but raises an index
error. -/
theorem trim_returns_implies_bound (enc : String → Nat) (maxT limit : Nat)
    (msgs l : List ChatMessage)
    (h : trimConversation enc maxT limit msgs = some l) :
    numTokensFromMessages enc l + maxT < limit := by
  cases msgs with
  | nil =>
    simp only [trimConversation] at h
    split at h
    · cases h
    · next hc =>
      cases h
      exact Nat.lt_of_not_le hc
  | cons sys rest =>
    simp only [trimConversation] at h
    rcases Option.map_eq_some'.mp h with ⟨t, ht, rfl⟩
    exact trimTail_bound enc maxT limit sys rest t ht

/-- Claim C2 (counterexample): on a log whose non system messages cannot
bring the estimate under the bound, `trim` does not return and proceed; it
raises an `IndexError` (modelled as `none`) by deleting index 1 from the
log that holds only the system message. -/
theorem trim_exhausted_raises_counterexample :
    trimConversation (fun _ => 100) 0 10 [⟨.system, "s"⟩, ⟨.user, "t"⟩] = none := by
  rfl

/-- Claim C2 (witness): a concrete log on which `trim` returns and the
bound holds. -/
theorem trim_returns_implies_bound_witness :
    numTokensFromMessages encZero [sysMsgW] + 0 < 10 :=
  trim_returns_implies_bound encZero 0 10 [sysMsgW] [sysMsgW] (by rfl)

/-- Claim C3: a trim of a log headed by the original system message keeps
that exact message at index 0 and only ever removes messages at index 1,
so the result is the head followed by a suffix of the original tail. -/
theorem trim_preserves_system_message (enc : String → Nat) (maxT limit : Nat)
    (m0 : ChatMessage) (t l : List ChatMessage)
    (h : trimConversation enc maxT limit (m0 :: t) = some l) :
    l.head? = some m0 ∧ ∃ s, l = m0 :: s ∧ s <:+ t := by
  unfold trimConversation at h
  rcases Option.map_eq_some'.mp h with ⟨s, hs, rfl⟩
  exact ⟨rfl, s, rfl, trimTail_suffix enc maxT limit m0 t s hs⟩

/-- Claim C3 (witness): a concrete trim that removes the one non system
message and keeps the system message at index 0. -/
theorem trim_preserves_system_message_witness :
    ([sysMsgW] : List ChatMessage).head? = some sysMsgW ∧
      ∃ s, [sysMsgW] = sysMsgW :: s ∧ s <:+ [⟨ChatMessageRole.user, "m"⟩] :=
  trim_preserves_system_message (fun _ => 3) 0 15 sysMsgW
    [⟨ChatMessageRole.user, "m"⟩] [sysMsgW] (by rfl)

/-- Appending a message is a permitted evolution step. -/
theorem msgsEvolve_append (l lp : List ChatMessage) (m : ChatMessage)
    (h : MsgsEvolve l lp) : MsgsEvolve l (lp ++ [m]) :=
  Relation.ReflTransGen.tail h (MsgStep.append lp m)

/-- Deleting any leading block of the tail, one index 1 deletion at a
time, is a permitted evolution. -/
theorem msgsEvolve_dropAll (x : ChatMessage) (s : List ChatMessage) :
    ∀ pre, MsgsEvolve (x :: (pre ++ s)) (x :: s) := by
  intro pre
  induction pre with
  | nil => exact Relation.ReflTransGen.refl
  | cons p pre ih =>
    exact Relation.ReflTransGen.head (MsgStep.drop1 x p (pre ++ s)) ih

/-- A returning trim is a permitted evolution of the message log. -/
theorem msgsEvolve_trim (enc : String → Nat) (maxT limit : Nat)
    (l lp : List ChatMessage) (h : trimConversation enc maxT limit l = some lp) :
    MsgsEvolve l lp := by
  cases l with
  | nil =>
    simp only [trimConversation] at h
    split at h
    · cases h
    · cases h
      exact Relation.ReflTransGen.refl
  | cons sys rest =>
    simp only [trimConversation] at h
    rcases Option.map_eq_some'.mp h with ⟨t, ht, rfl⟩
    rcases trimTail_suffix enc maxT limit sys rest t ht with ⟨pre, rfl⟩
    exact msgsEvolve_dropAll sys t pre

/-- Every loop iteration satisfies the per iteration invariant. -/
theorem iterBody_inv (agent : Agent) (C : Collaborators) (prompt : String) (callIdx : Nat)
    (chat : Chat) : iterInvariant chat (iterBody agent C prompt callIdx chat) := by
  unfold iterBody
  rcases hL : MODEL_TOKEN_LIMIT agent.llm.model with _ | limit
  · simp [hL, iterInvariant]
  rcases hT : trimConversation C.enc agent.llm.maxTokens limit chat.messages with _ | tm
  · simp [hL, hT, iterInvariant]
  have hTrimEv : MsgsEvolve chat.messages tm := msgsEvolve_trim _ _ _ _ _ hT
  simp only [hL, hT]
  rcases hP : parseOutput C.parse (C.complete callIdx tm) with e | ⟨out?, obs⟩
  · simp [hP, iterInvariant]
  rcases out? with _ | out
  · simp [hP, finishIter, Chat.update, iterInvariant]
    exact msgsEvolve_append _ _ _ hTrimEv
  rcases out with ⟨th, nm, inp⟩ | ⟨th, v⟩
  · rcases hTools : agent.tools with _ | ts
    · simp [hP, hTools, finishIter, Chat.update, iterInvariant, LLMOutput.thought]
      exact msgsEvolve_append _ _ _ hTrimEv
    · rcases hF : lookupTool ts nm with _ | tool
      · simp [hP, hTools, hF, finishIter, Chat.update, iterInvariant, LLMOutput.thought]
        exact msgsEvolve_append _ _ _ hTrimEv
      · simp [hP, hTools, hF, finishIter, Chat.update, iterInvariant, LLMOutput.thought]
        exact msgsEvolve_append _ _ _ hTrimEv
  · simp [hP, iterInvariant, LLMOutput.thought]
    exact msgsEvolve_append _ _ _ hTrimEv

/-- The whole loop satisfies the composed invariant for any fuel, call
count and starting state. -/
theorem invokeLoop_inv (agent : Agent) (C : Collaborators) (prompt : String) :
    ∀ n calls chat, loopInvariant chat (invokeLoop agent C prompt n calls chat).1 := by
  intro n
  induction n with
  | zero =>
    intro calls chat
    simp [invokeLoop, loopInvariant]
    exact Relation.ReflTransGen.refl
  | succ n ih =>
    intro calls chat
    have hIter := iterBody_inv agent C prompt calls chat
    unfold invokeLoop
    rcases hB : iterBody agent C prompt calls chat with ⟨out, chat2⟩ | chat2 | ⟨e, b⟩
    · rw [hB] at hIter
      simp only [iterInvariant] at hIter
      obtain ⟨h1, h2, h3⟩ := hIter
      exact ⟨h1 ▸ h2, h1, h3⟩
    · rw [hB] at hIter
      simp only [iterInvariant] at hIter
      obtain ⟨h1, h2⟩ := hIter
      have hRest := ih (calls + 1) chat2
      rcases hR : invokeLoop agent C prompt n (calls + 1) chat2 with ⟨res, calls2⟩
      rw [hR] at hRest
      simp only [hR]
      rcases res with ⟨out2, chatF⟩ | chatF | e
      · obtain ⟨g1, g2, g3⟩ := hRest
        exact ⟨h1.trans g1, g2, h2.trans g3⟩
      · obtain ⟨g1, g2⟩ := hRest
        exact ⟨h1.trans g1, h2.trans g2⟩
      · trivial
    · simp [loopInvariant]

/-- The loop makes at most one model call per unit of fuel. -/
theorem invokeLoop_calls_le (agent : Agent) (C : Collaborators) (prompt : String) :
    ∀ n calls chat, (invokeLoop agent C prompt n calls chat).2 ≤ calls + n := by
  intro n
  induction n with
  | zero => intro calls chat; simp [invokeLoop]
  | succ n ih =>
    intro calls chat
    unfold invokeLoop
    rcases hB : iterBody agent C prompt calls chat with ⟨out, chat2⟩ | chat2 | ⟨e, b⟩
    · simp
    · have := ih (calls + 1) chat2
      simp
      omega
    · rcases b <;> simp

/-- A list extending a cons list as a prefix starts with the same head. -/
theorem prefix_cons_head (a : ReasoningStep) (t l : List ReasoningStep)
    (h : (a :: t) <+: l) : l.head? = some a := by
  rcases h with ⟨s, rfl⟩
  rfl

/-- Claim C1: for every configuration and every collaborator behaviour the
loop terminates within its fuel and makes at most one model completion
call per iteration, so at most `iterations + 1` calls in total; every
returned output either carries a genuine final answer produced by an
immediate loop return or is the fallback answer of the exhausted
budget. -/
theorem invoke_terminates_and_bounds_model_calls :
    (∀ (agent : Agent) (C : Collaborators) (prompt : String) (n calls : Nat) (chat : Chat),
      (invokeLoop agent C prompt n calls chat).2 ≤ calls + n) ∧
    (∀ (agent : Agent) (C : Collaborators) (inputs : String → Option String)
      (r : InvokeResult), agent.invoke C inputs = .ok r →
        r.modelCalls ≤ agent.iterations + 1 ∧
        (r.output.finalAnswer = fallbackAnswer agent.outputParser ∨
          ∃ chatF, invokeLoop agent C (agent.resolvedPrompt C inputs) (agent.iterations + 1) 0
            (initChat agent.chat (agent.resolvedPrompt C inputs)) =
              (.answered r.output chatF, r.modelCalls))) := by
  constructor
  · intro agent C prompt n calls chat
    exact invokeLoop_calls_le agent C prompt n calls chat
  · intro agent C inputs r h
    have hle := invokeLoop_calls_le agent C (agent.resolvedPrompt C inputs)
      (agent.iterations + 1) 0 (initChat agent.chat (agent.resolvedPrompt C inputs))
    unfold Agent.invoke at h
    rcases hl : invokeLoop agent C (agent.resolvedPrompt C inputs) (agent.iterations + 1) 0
        (initChat agent.chat (agent.resolvedPrompt C inputs)) with ⟨res, calls⟩
    rw [hl] at h hle
    rcases res with ⟨out, chatF⟩ | chatF | e
    · simp at h hle
      cases h
      exact ⟨hle, .inr ⟨chatF, rfl⟩⟩
    · simp at h hle
      cases h
      exact ⟨hle, .inl rfl⟩
    · simp at h

/-- Claim C1 (witness): the concrete exhausting run makes one model call
against a budget of one and produces the fallback answer. -/
theorem invoke_terminates_and_bounds_model_calls_witness :
    (invokeLoop agentW CFailValue "p" 1 0 chatW).2 ≤ 0 + 1 ∧
    (rFailW.modelCalls ≤ agentW.iterations + 1 ∧
      (rFailW.output.finalAnswer = fallbackAnswer agentW.outputParser ∨
        ∃ chatF, invokeLoop agentW CFailValue (agentW.resolvedPrompt CFailValue inputsW)
            (agentW.iterations + 1) 0
            (initChat agentW.chat (agentW.resolvedPrompt CFailValue inputsW)) =
          (.answered rFailW.output chatF, rFailW.modelCalls))) :=
  ⟨invoke_terminates_and_bounds_model_calls.1 agentW CFailValue "p" 1 0 chatW,
   invoke_terminates_and_bounds_model_calls.2 agentW CFailValue inputsW rFailW (by rfl)⟩

/-- Claim C4: a parse failure of kind `ValueError` or `TypeError` is
caught: the turn records no thought and no tool step, the error message
becomes the observation summary, and the loop continues; a parse failure
of any other kind is not caught, aborts the iteration before anything is
recorded, and propagates out of `invoke` as a fatal error. -/
theorem parse_failures_caught_exactly :
    (∀ (agent : Agent) (C : Collaborators) (prompt : String) (callIdx : Nat) (chat : Chat)
      (limit : Nat) (tm : List ChatMessage) (k : ParseErrorKind) (msg : String),
      MODEL_TOKEN_LIMIT agent.llm.model = some limit →
      trimConversation C.enc agent.llm.maxTokens limit chat.messages = some tm →
      C.parse (C.complete callIdx tm) = .failure k msg →
      k = ParseErrorKind.valueError ∨ k = ParseErrorKind.typeError →
      iterBody agent C prompt callIdx chat =
        .next ⟨tm ++ [⟨.user, C.updateContent prompt (chat.steps ++ ["Observation: " ++ msg])⟩],
               chat.chainOfThought,
               chat.steps ++ ["Observation: " ++ msg]⟩) ∧
    (∀ (agent : Agent) (C : Collaborators) (prompt : String) (callIdx : Nat) (chat : Chat)
      (limit : Nat) (tm : List ChatMessage) (msg : String),
      MODEL_TOKEN_LIMIT agent.llm.model = some limit →
      trimConversation C.enc agent.llm.maxTokens limit chat.messages = some tm →
      C.parse (C.complete callIdx tm) = .failure .other msg →
      iterBody agent C prompt callIdx chat = .fatal (.uncaughtParse msg) true) ∧
    (∀ (agent : Agent) (C : Collaborators) (inputs : String → Option String)
      (limit : Nat) (tm : List ChatMessage) (msg : String),
      MODEL_TOKEN_LIMIT agent.llm.model = some limit →
      trimConversation C.enc agent.llm.maxTokens limit
        (initChat agent.chat (agent.resolvedPrompt C inputs)).messages = some tm →
      C.parse (C.complete 0 tm) = .failure .other msg →
      agent.invoke C inputs = .error (.uncaughtParse msg)) := by
  refine ⟨?_, ?_, ?_⟩
  · intro agent C prompt callIdx chat limit tm k msg hL hT hP hk
    rcases hk with rfl | rfl <;>
      simp [iterBody, hL, hT, parseOutput, hP, finishIter, Chat.update, observationText]
  · intro agent C prompt callIdx chat limit tm msg hL hT hP
    simp [iterBody, hL, hT, parseOutput, hP]
  · intro agent C inputs limit tm msg hL hT hP
    have hIter : iterBody agent C (agent.resolvedPrompt C inputs) 0
        (initChat agent.chat (agent.resolvedPrompt C inputs)) =
          .fatal (.uncaughtParse msg) true := by
      simp [iterBody, hL, hT, parseOutput, hP]
    unfold Agent.invoke
    simp [invokeLoop, hIter]

/-- Claim C4 (witness): concrete turns showing the caught value error
becoming the observation and the uncaught kind propagating out of
`invoke`. -/
theorem parse_failures_caught_exactly_witness :
    iterBody agentW CFailValue "p" 0 (initChat chatW "p") =
      .next ⟨[sysMsgW, ⟨.user, "p"⟩, ⟨.user, "u"⟩], [⟨.prompt, .text "p"⟩],
        ["Observation: bad"]⟩ ∧
    iterBody agentW CFailOther "p" 0 (initChat chatW "p") =
      .fatal (.uncaughtParse "boom") true ∧
    Agent.invoke agentW CFailOther inputsW = .error (.uncaughtParse "boom") :=
  ⟨parse_failures_caught_exactly.1 agentW CFailValue "p" 0 (initChat chatW "p") 8192
      [sysMsgW, ⟨.user, "p"⟩] .valueError "bad" rfl rfl rfl (.inl rfl),
   parse_failures_caught_exactly.2.1 agentW CFailOther "p" 0 (initChat chatW "p") 8192
      [sysMsgW, ⟨.user, "p"⟩] "boom" rfl rfl rfl,
   parse_failures_caught_exactly.2.2 agentW CFailOther inputsW 8192
      [sysMsgW, ⟨.user, "p"⟩] "boom" rfl rfl rfl⟩

/-- Claim C5: with tools configured, a tool use naming a registered tool
invokes it and the observation summary is exactly the tool response
wrapper; a tool use naming an unregistered tool invokes nothing and the
observation lists the registered tool names; both cases continue the
loop. -/
theorem tool_dispatch_observation :
    ∀ (agent : Agent) (C : Collaborators) (prompt : String) (callIdx : Nat) (chat : Chat)
      (limit : Nat) (tm : List ChatMessage) (th nm inp : String) (ts : List Tool),
      MODEL_TOKEN_LIMIT agent.llm.model = some limit →
      trimConversation C.enc agent.llm.maxTokens limit chat.messages = some tm →
      C.parse (C.complete callIdx tm) = .success (.toolUse th nm inp) →
      agent.tools = some ts →
      (∀ tool, lookupTool ts nm = some tool →
        iterBody agent C prompt callIdx chat =
          .next ⟨tm ++ [⟨.user, C.updateContent prompt
                   (chat.steps ++ ["Thought: " ++ th, "Tool: " ++ tool.name,
                     "Tool Input: " ++ inp,
                     "Observation: " ++ ("Tool Response:\n" ++ tool.invoke inp)])⟩],
                 chat.chainOfThought ++ [⟨.thought, .text th⟩,
                   ⟨.tool, .toolCall ⟨nm, inp, tool.invoke inp⟩⟩],
                 chat.steps ++ ["Thought: " ++ th, "Tool: " ++ tool.name,
                   "Tool Input: " ++ inp,
                   "Observation: " ++ ("Tool Response:\n" ++ tool.invoke inp)]⟩) ∧
      (lookupTool ts nm = none →
        iterBody agent C prompt callIdx chat =
          .next ⟨tm ++ [⟨.user, C.updateContent prompt
                   (chat.steps ++ ["Thought: " ++ th,
                     "Observation: " ++ (nm ++ " tool doesn\x27t exist. Try one of these tools: " ++
                       toolNames ts)])⟩],
                 chat.chainOfThought ++ [⟨.thought, .text th⟩],
                 chat.steps ++ ["Thought: " ++ th,
                   "Observation: " ++ (nm ++ " tool doesn\x27t exist. Try one of these tools: " ++
                     toolNames ts)]⟩) := by
  intro agent C prompt callIdx chat limit tm th nm inp ts hL hT hP hTools
  constructor
  · intro tool hF
    simp [iterBody, hL, hT, parseOutput, hP, hTools, hF, finishIter, Chat.update,
      observationText, LLMOutput.thought]
  · intro hF
    simp [iterBody, hL, hT, parseOutput, hP, hTools, hF, finishIter, Chat.update,
      observationText, LLMOutput.thought]

/-- Claim C5 (witness): one concrete turn invoking the registered echo
tool and one concrete turn naming the unregistered ghost tool. -/
theorem tool_dispatch_observation_witness :
    iterBody agentTools CToolEcho "p" 0 (initChat chatW "p") =
      .next ⟨[sysMsgW, ⟨.user, "p"⟩, ⟨.user, "u"⟩],
             [⟨.prompt, .text "p"⟩, ⟨.thought, .text "th"⟩,
              ⟨.tool, .toolCall ⟨"echo", "in", "in"⟩⟩],
             ["Thought: th", "Tool: echo", "Tool Input: in",
              "Observation: Tool Response:\nin"]⟩ ∧
    iterBody agentTools CToolGhost "p" 0 (initChat chatW "p") =
      .next ⟨[sysMsgW, ⟨.user, "p"⟩, ⟨.user, "u"⟩],
             [⟨.prompt, .text "p"⟩, ⟨.thought, .text "th"⟩],
             ["Thought: th",
              "Observation: ghost tool doesn\x27t exist. Try one of these tools: echo"]⟩ :=
  ⟨(tool_dispatch_observation agentTools CToolEcho "p" 0 (initChat chatW "p") 8192
      [sysMsgW, ⟨.user, "p"⟩] "th" "echo" "in" [echoTool] rfl rfl rfl rfl).1 echoTool rfl,
   (tool_dispatch_observation agentTools CToolGhost "p" 0 (initChat chatW "p") 8192
      [sysMsgW, ⟨.user, "p"⟩] "th" "ghost" "in" [echoTool] rfl rfl rfl rfl).2 rfl⟩

/-- Claim C6: budget exhaustion returns the fallback answer, and the
fallback answer has the declared shape filled with nulls: a mapping of
every schema field to null for the structured object type, a one element
list of that mapping for the list of structured objects type, and null for
the plain output types. -/
theorem budget_exhaustion_fallback_shape :
    (∀ (agent : Agent) (C : Collaborators) (inputs : String → Option String)
      (chatF : Chat) (calls : Nat),
      invokeLoop agent C (agent.resolvedPrompt C inputs) (agent.iterations + 1) 0
        (initChat agent.chat (agent.resolvedPrompt C inputs)) = (.exhausted chatF, calls) →
      agent.invoke C inputs =
        .ok ⟨⟨agent.resolvedPrompt C inputs, fallbackAnswer agent.outputParser,
          chatF.chainOfThought⟩, chatF, calls⟩) ∧
    (∀ p : AgentOutputParser, p.outputType = .struct →
      fallbackAnswer p = .obj (p.objectSchemaProps.map (fun key => (key, Value.null)))) ∧
    (∀ p : AgentOutputParser, p.outputType = .arrayStruct →
      fallbackAnswer p = .arr [.obj (p.objectSchemaProps.map (fun key => (key, Value.null)))]) ∧
    (∀ p : AgentOutputParser,
      p.outputType = .string ∨ p.outputType = .number ∨ p.outputType = .date ∨
        p.outputType = .timestamp ∨ p.outputType = .nothing →
      fallbackAnswer p = .null) := by
  refine ⟨?_, ?_, ?_, ?_⟩
  · intro agent C inputs chatF calls h
    unfold Agent.invoke
    rw [h]
  · intro p h
    simp [fallbackAnswer, h]
  · intro p h
    simp [fallbackAnswer, h]
  · intro p h
    rcases h with h | h | h | h | h <;> simp [fallbackAnswer, h]

/-- Claim C6 (witness): the concrete exhausting run returns the fallback,
and the fallback shapes evaluate on concrete parser configurations. -/
theorem budget_exhaustion_fallback_shape_witness :
    Agent.invoke agentW CFailValue inputsW =
      .ok ⟨⟨"p", fallbackAnswer agentW.outputParser, [⟨.prompt, .text "p"⟩]⟩,
        ⟨[sysMsgW, ⟨.user, "p"⟩, ⟨.user, "u"⟩], [⟨.prompt, .text "p"⟩],
         ["Observation: bad"]⟩, 1⟩ ∧
    fallbackAnswer parserStructAB = .obj [("a", .null), ("b", .null)] ∧
    fallbackAnswer ⟨.arrayStruct, ["a", "b"], [], false⟩ =
      .arr [.obj [("a", .null), ("b", .null)]] ∧
    fallbackAnswer ⟨.string, [], [], false⟩ = .null :=
  ⟨budget_exhaustion_fallback_shape.1 agentW CFailValue inputsW
      ⟨[sysMsgW, ⟨.user, "p"⟩, ⟨.user, "u"⟩], [⟨.prompt, .text "p"⟩],
       ["Observation: bad"]⟩ 1 (by rfl),
   budget_exhaustion_fallback_shape.2.1 parserStructAB rfl,
   budget_exhaustion_fallback_shape.2.2.1 ⟨.arrayStruct, ["a", "b"], [], false⟩ rfl,
   budget_exhaustion_fallback_shape.2.2.2 ⟨.string, [], [], false⟩ (.inl rfl)⟩

/-- Claim C7 (counterexample): a successfully parsed tool use result does
not always append a tool step; when the requested name is not registered,
the trace gains the thought step only (zero tool steps), refuting the
claim at this concrete input. -/
theorem toolUse_without_tool_step_counterexample :
    CToolGhost.parse (CToolGhost.complete 0 [sysMsgW, ⟨.user, "p"⟩]) =
      .success (.toolUse "th" "ghost" "in") ∧
    iterBody agentTools CToolGhost "p" 0 (initChat chatW "p") =
      .next ⟨[sysMsgW, ⟨.user, "p"⟩, ⟨.user, "u"⟩],
             [⟨.prompt, .text "p"⟩, ⟨.thought, .text "th"⟩],
             ["Thought: th",
              "Observation: ghost tool doesn\x27t exist. Try one of these tools: echo"]⟩ ∧
    ((iterBody agentTools CToolGhost "p" 0 (initChat chatW "p")).nextChat.map
      (fun c => c.chainOfThought.countP (fun s => s.name == ReasoningStepName.tool))) =
        some 0 :=
  ⟨rfl, rfl, rfl⟩

/-- Claim C7 (amended): the first element of the returned chain of thought
is the prompt step; a successfully parsed tool use result naming a
registered tool appends exactly one thought step followed by exactly one
tool step; a final answer result appends the thought and final answer
steps, appends an assistant message with the stringified answer, and the
loop returns with it immediately. -/
theorem chain_of_thought_structure :
    (∀ (agent : Agent) (C : Collaborators) (inputs : String → Option String)
      (r : InvokeResult), agent.invoke C inputs = .ok r →
      r.output.chainOfThought.head? =
        some ⟨.prompt, .text (agent.resolvedPrompt C inputs)⟩) ∧
    (∀ (agent : Agent) (C : Collaborators) (prompt : String) (callIdx : Nat) (chat : Chat)
      (limit : Nat) (tm : List ChatMessage) (th nm inp : String) (ts : List Tool)
      (tool : Tool),
      MODEL_TOKEN_LIMIT agent.llm.model = some limit →
      trimConversation C.enc agent.llm.maxTokens limit chat.messages = some tm →
      C.parse (C.complete callIdx tm) = .success (.toolUse th nm inp) →
      agent.tools = some ts → lookupTool ts nm = some tool →
      ∃ chat', iterBody agent C prompt callIdx chat = .next chat' ∧
        chat'.chainOfThought = chat.chainOfThought ++
          [⟨.thought, .text th⟩, ⟨.tool, .toolCall ⟨nm, inp, tool.invoke inp⟩⟩]) ∧
    (∀ (agent : Agent) (C : Collaborators) (prompt : String) (callIdx : Nat) (chat : Chat)
      (limit : Nat) (tm : List ChatMessage) (th : String) (v : Value),
      MODEL_TOKEN_LIMIT agent.llm.model = some limit →
      trimConversation C.enc agent.llm.maxTokens limit chat.messages = some tm →
      C.parse (C.complete callIdx tm) = .success (.finalAnswer th v) →
      iterBody agent C prompt callIdx chat =
        .done ⟨prompt, v, chat.chainOfThought ++
            [⟨.thought, .text th⟩, ⟨.finalAnswer, .text (C.strOf v)⟩]⟩
          ⟨tm ++ [⟨.assistant, C.strOf v⟩],
           chat.chainOfThought ++ [⟨.thought, .text th⟩, ⟨.finalAnswer, .text (C.strOf v)⟩],
           chat.steps ++ ["Thought: " ++ th]⟩) ∧
    (∀ (agent : Agent) (C : Collaborators) (prompt : String) (n calls : Nat) (chat : Chat)
      (out : AgentOutput) (chatF : Chat),
      iterBody agent C prompt calls chat = .done out chatF →
      invokeLoop agent C prompt (n + 1) calls chat = (.answered out chatF, calls + 1)) := by
  refine ⟨?_, ?_, ?_, ?_⟩
  · intro agent C inputs r h
    have hInv := invokeLoop_inv agent C (agent.resolvedPrompt C inputs)
      (agent.iterations + 1) 0 (initChat agent.chat (agent.resolvedPrompt C inputs))
    unfold Agent.invoke at h
    rcases hl : invokeLoop agent C (agent.resolvedPrompt C inputs) (agent.iterations + 1) 0
        (initChat agent.chat (agent.resolvedPrompt C inputs)) with ⟨res, calls⟩
    rw [hl] at h hInv
    rcases res with ⟨out, chatF⟩ | chatF | e
    · simp at h
      cases h
      exact prefix_cons_head _ _ _ hInv.1
    · simp at h
      cases h
      exact prefix_cons_head _ _ _ hInv.1
    · simp at h
  · intro agent C prompt callIdx chat limit tm th nm inp ts tool hL hT hP hTools hF
    refine ⟨⟨tm ++ [⟨.user, C.updateContent prompt
        (chat.steps ++ ["Thought: " ++ th, "Tool: " ++ tool.name, "Tool Input: " ++ inp,
          "Observation: " ++ ("Tool Response:\n" ++ tool.invoke inp)])⟩],
      chat.chainOfThought ++ [⟨.thought, .text th⟩,
        ⟨.tool, .toolCall ⟨nm, inp, tool.invoke inp⟩⟩],
      chat.steps ++ ["Thought: " ++ th, "Tool: " ++ tool.name, "Tool Input: " ++ inp,
        "Observation: " ++ ("Tool Response:\n" ++ tool.invoke inp)]⟩, ?_, rfl⟩
    simp [iterBody, hL, hT, parseOutput, hP, hTools, hF, finishIter, Chat.update,
      observationText, LLMOutput.thought]
  · intro agent C prompt callIdx chat limit tm th v hL hT hP
    simp [iterBody, hL, hT, parseOutput, hP, LLMOutput.thought]
  · intro agent C prompt n calls chat out chatF h
    simp [invokeLoop, h]

/-- Claim C7 (witness): the prompt step heads the trace of the concrete
final answer run; the concrete echo tool turn appends exactly the thought
and tool steps; the concrete final answer turn returns immediately. -/
theorem chain_of_thought_structure_witness :
    rFinalW.output.chainOfThought.head? = some ⟨.prompt, .text "p"⟩ ∧
    (∃ chat', iterBody agentTools CToolEcho "p" 0 (initChat chatW "p") = .next chat' ∧
      chat'.chainOfThought = (initChat chatW "p").chainOfThought ++
        [⟨.thought, .text "th"⟩, ⟨.tool, .toolCall ⟨"echo", "in", "in"⟩⟩]) ∧
    iterBody agentW CFinal "p" 0 (initChat chatW "p") =
      .done rFinalW.output rFinalW.chat ∧
    invokeLoop agentW CFinal "p" (0 + 1) 0 (initChat chatW "p") =
      (.answered rFinalW.output rFinalW.chat, 0 + 1) :=
  ⟨chain_of_thought_structure.1 agentW CFinal inputsW rFinalW (by rfl),
   chain_of_thought_structure.2.1 agentTools CToolEcho "p" 0 (initChat chatW "p") 8192
     [sysMsgW, ⟨.user, "p"⟩] "th" "echo" "in" [echoTool] echoTool rfl rfl rfl rfl rfl,
   chain_of_thought_structure.2.2.1 agentW CFinal "p" 0 (initChat chatW "p") 8192
     [sysMsgW, ⟨.user, "p"⟩] "th" (.str "answer") rfl rfl rfl,
   chain_of_thought_structure.2.2.2 agentW CFinal "p" 0 0 (initChat chatW "p")
     rFinalW.output rFinalW.chat (by rfl)⟩

/-- Claim C8: requesting a free form object output type, single or list,
without a schema makes construction fail with the value error instead of
producing an agent. -/
theorem create_requires_schema_for_object_types :
    ∀ (T : PromptTemplates) (llm : OpenAILanguageModel) (systemPrompt prompt : String)
      (promptVariables : List String) (outputType : OutputType)
      (tools : Option (List Tool)) (strategy : PromptingStrategy) (iterations : Nat),
      outputType = .object ∨ outputType = .arrayObject →
      Agent.create T llm systemPrompt prompt promptVariables outputType none tools
        strategy iterations = .error (.valueErrorSchema outputType) := by
  intro T llm systemPrompt prompt promptVariables outputType tools strategy iterations h
  rcases h with rfl | rfl <;> rfl

/-- Claim C8 (witness): a concrete construction request with the free form
object output type and no schema fails with the value error. -/
theorem create_requires_schema_for_object_types_witness :
    Agent.create templatesW llmW "sys" "p" [] .object none none .chainOfThought
      defaultIterations = .error (.valueErrorSchema .object) :=
  create_requires_schema_for_object_types templatesW llmW "sys" "p" [] .object none
    .chainOfThought defaultIterations (.inl rfl)

/-- Claim C9: `invoke` never resets the existing message log: the log it
leaves behind is reachable from the prior log extended with the newly
formatted user prompt by appends and trim deletions of index 1 only, so
messages of earlier calls survive up to trimming. -/
theorem invoke_preserves_prior_messages :
    ∀ (agent : Agent) (C : Collaborators) (inputs : String → Option String)
      (r : InvokeResult), agent.invoke C inputs = .ok r →
      MsgsEvolve (agent.chat.messages ++ [⟨.user, agent.resolvedPrompt C inputs⟩])
        r.chat.messages := by
  intro agent C inputs r h
  have hInv := invokeLoop_inv agent C (agent.resolvedPrompt C inputs)
    (agent.iterations + 1) 0 (initChat agent.chat (agent.resolvedPrompt C inputs))
  unfold Agent.invoke at h
  rcases hl : invokeLoop agent C (agent.resolvedPrompt C inputs) (agent.iterations + 1) 0
      (initChat agent.chat (agent.resolvedPrompt C inputs)) with ⟨res, calls⟩
  rw [hl] at h hInv
  rcases res with ⟨out, chatF⟩ | chatF | e
  · simp at h
    cases h
    exact hInv.2.2
  · simp at h
    cases h
    exact hInv.2
  · simp at h

/-- Claim C9 (witness): the concrete run evolves the prior log plus the
prompt message into the final log by one append. -/
theorem invoke_preserves_prior_messages_witness :
    MsgsEvolve [sysMsgW, ⟨ChatMessageRole.user, "p"⟩]
      [sysMsgW, ⟨ChatMessageRole.user, "p"⟩, ⟨ChatMessageRole.user, "u"⟩] :=
  invoke_preserves_prior_messages agentW CFailValue inputsW rFailW (by rfl)

/-- Claim C10: a successfully parsed tool use while no tools are
configured invokes nothing and records no tool step; the thought step is
still appended, the observation summary for the turn is exactly the text
Observation: None, and the loop continues without raising. -/
theorem toolUse_with_no_tools_configured :
    ∀ (agent : Agent) (C : Collaborators) (prompt : String) (callIdx : Nat) (chat : Chat)
      (limit : Nat) (tm : List ChatMessage) (th nm inp : String),
      MODEL_TOKEN_LIMIT agent.llm.model = some limit →
      trimConversation C.enc agent.llm.maxTokens limit chat.messages = some tm →
      C.parse (C.complete callIdx tm) = .success (.toolUse th nm inp) →
      agent.tools = none →
      iterBody agent C prompt callIdx chat =
        .next ⟨tm ++ [⟨.user, C.updateContent prompt
                 (chat.steps ++ ["Thought: " ++ th, "Observation: None"])⟩],
               chat.chainOfThought ++ [⟨.thought, .text th⟩],
               chat.steps ++ ["Thought: " ++ th, "Observation: None"]⟩ := by
  intro agent C prompt callIdx chat limit tm th nm inp hL hT hP hTools
  simp [iterBody, hL, hT, parseOutput, hP, hTools, finishIter, Chat.update,
    observationText, LLMOutput.thought]

/-- Claim C10 (witness): the concrete toolless turn records the thought
and the Observation: None summary and continues. -/
theorem toolUse_with_no_tools_configured_witness :
    iterBody agentW CToolGhost "p" 0 (initChat chatW "p") =
      .next ⟨[sysMsgW, ⟨.user, "p"⟩, ⟨.user, "u"⟩],
             [⟨.prompt, .text "p"⟩, ⟨.thought, .text "th"⟩],
             ["Thought: th", "Observation: None"]⟩ :=
  toolUse_with_no_tools_configured agentW CToolGhost "p" 0 (initChat chatW "p") 8192
    [sysMsgW, ⟨.user, "p"⟩] "th" "ghost" "in" rfl rfl rfl rfl
